import Mathlib

set_option maxHeartbeats 1000000

/-!
Verification of the N4 flight software core pipeline
(src/n4-flight-software/src/main.cpp, include/defs.h, src/states.h).

The per-sample body of `checkFlightState`, the `kalmanFilter` update, the
altimeter producer's packet construction and the queue-send call sites are
embedded as executable Lean functions over `ℚ` (C `float` arithmetic is
modelled as exact rational arithmetic).  Chained C comparisons such as
`a < x < b`, which evaluate as `(a < x) < b`, are embedded with exactly that
semantics.  The `uint8_t` flag globals are modelled as naturals, the
`static int apogee_val` as an integer assigned with C float-to-int
truncation.
-/

/-- Flight states, from src/states.h: the `FLIGHT_STATE` enum with values 0..8. -/
inductive FLIGHT_STATE : Type where
  | PRE_FLIGHT_GROUND
  | POWERED_FLIGHT
  | COASTING
  | APOGEE
  | DROGUE_DEPLOY
  | DROGUE_DESCENT
  | MAIN_DEPLOY
  | MAIN_DESCENT
  | POST_FLIGHT_GROUND
deriving DecidableEq

open FLIGHT_STATE

/-- Numeric value of each enumerator, as declared in src/states.h. -/
def FLIGHT_STATE.toNat : FLIGHT_STATE → ℕ
  | .PRE_FLIGHT_GROUND => 0
  | .POWERED_FLIGHT => 1
  | .COASTING => 2
  | .APOGEE => 3
  | .DROGUE_DEPLOY => 4
  | .DROGUE_DESCENT => 5
  | .MAIN_DEPLOY => 6
  | .MAIN_DESCENT => 7
  | .POST_FLIGHT_GROUND => 8

/-- From include/defs.h line 42. -/
def LAUNCH_DETECTION_THRESHOLD : ℚ := 5

/-- From include/defs.h line 43. -/
def LAUNCH_DETECTION_ALTITUDE_WINDOW : ℚ := 20

/-- From include/defs.h line 44. -/
def APOGEE_DETECTION_THRESHOLD : ℚ := 5

/-- The filter globals of main.cpp: `estimated_altitude`, `error_covariance_bmp`
and `kalman_gain_bmp`. -/
structure KalmanState where
  estimated_altitude : ℚ
  error_covariance_bmp : ℚ
  kalman_gain_bmp : ℚ
deriving DecidableEq

/-- The body of `kalmanFilter` (main.cpp lines 1093-1101), with the two variance
constants passed explicitly.  Returns the updated globals together with the
function's return value. -/
def kalmanFilter (process_variance_bmp measurement_variance_bmp : ℚ)
    (s : KalmanState) (z : ℚ) : KalmanState × ℚ :=
  let estimated_altitude_pred := s.estimated_altitude
  let error_covariance_pred := s.error_covariance_bmp + process_variance_bmp
  let kalman_gain_bmp := error_covariance_pred / (error_covariance_pred + measurement_variance_bmp)
  let estimated_altitude := estimated_altitude_pred + kalman_gain_bmp * (z - estimated_altitude_pred)
  let error_covariance_bmp := (1 - kalman_gain_bmp) * error_covariance_pred
  (⟨estimated_altitude, error_covariance_bmp, kalman_gain_bmp⟩, estimated_altitude)

/-- Iterated filter updates on the fixed raw input `z`. -/
def kalmanIter (pv mv z : ℚ) (s : KalmanState) : ℕ → KalmanState
  | 0 => s
  | n + 1 => (kalmanFilter pv mv (kalmanIter pv mv z s n) z).1

/-- The spec's AltitudeEstimator state: `{estimate, error_covariance}`. -/
structure AltitudeEstimator where
  estimate : ℚ
  error_covariance : ℚ
deriving DecidableEq

/-- The spec's `update(raw)` recursion, written from the spec's five numbered
steps, to be compared with `kalmanFilter` from the source. -/
def AltitudeEstimator.update (process_variance measurement_variance : ℚ)
    (s : AltitudeEstimator) (raw : ℚ) : AltitudeEstimator × ℚ :=
  let predicted_covariance := s.error_covariance + process_variance
  let gain := predicted_covariance / (predicted_covariance + measurement_variance)
  let estimate := s.estimate + gain * (raw - s.estimate)
  let error_covariance := (1 - gain) * predicted_covariance
  (⟨estimate, error_covariance⟩, estimate)

/-- Modelled from the spec: the repository's `ring_buffer.h` is not under src/
(main.cpp only calls it).  Per spec sections 3 and 4.2 the structure is a
fixed-capacity circular buffer with a fill count, FIFO eviction of the oldest
slot once full, and a single read operation returning the oldest value.  The
oldest element is kept at the head of `data`. -/
structure ring_buffer where
  capacity : ℕ
  data : List ℚ
deriving DecidableEq

/-- Modelled from the spec: an empty buffer of the given fixed capacity. -/
def ring_buffer_init (n : ℕ) : ring_buffer := ⟨n, []⟩

/-- Modelled from the spec: `push` inserts, overwriting the oldest slot once
full, and updates the fill count. -/
def ring_buffer_put (rb : ring_buffer) (v : ℚ) : ring_buffer :=
  if rb.data.length < rb.capacity then ⟨rb.capacity, rb.data ++ [v]⟩
  else ⟨rb.capacity, rb.data.tail ++ [v]⟩

/-- Modelled from the spec: `is_full`. -/
def ring_buffer_full (rb : ring_buffer) : Bool := decide (rb.capacity ≤ rb.data.length)

/-- Modelled from the spec: the oldest-value query (`peek_oldest`), the value
about to be evicted. -/
def ring_buffer_get (rb : ring_buffer) : ℚ := rb.data.headD 0

/-- C float-to-int conversion truncates toward zero; used by the assignment to
the `static int apogee_val` global. -/
def c_float_to_int (q : ℚ) : ℤ := if 0 ≤ q then ⌊q⌋ else ⌈q⌉

/-- The chained C comparison
`LAUNCH_DETECTION_THRESHOLD < altitude < (LAUNCH_DETECTION_THRESHOLD+LAUNCH_DETECTION_ALTITUDE_WINDOW)`
(main.cpp line 1134): the first comparison yields 0 or 1, and that value is
compared against the upper bound. -/
def launch_window_cond (x : ℚ) : Bool :=
  decide ((if LAUNCH_DETECTION_THRESHOLD < x then (1 : ℚ) else 0) <
    LAUNCH_DETECTION_THRESHOLD + LAUNCH_DETECTION_ALTITUDE_WINDOW)

/-- The chained C comparison
`LAUNCH_DETECTION_THRESHOLD <= altitude <= apogee_val` (main.cpp line 1172):
the first comparison yields the int 0 or 1, compared against `apogee_val`. -/
def main_deploy_cond (x : ℚ) (apogee_val : ℤ) : Bool :=
  decide ((if LAUNCH_DETECTION_THRESHOLD ≤ x then (1 : ℤ) else 0) ≤ apogee_val)

/-- The mutable globals read and written by `checkFlightState` in main.cpp:
`current_state`, `apogee_flag`, `main_eject_flag`, `check_done_flag`,
`apogee_val`, `oldest_val` and `altitude_ring_buffer`. -/
structure FlightMachine where
  current_state : FLIGHT_STATE
  apogee_flag : ℕ
  main_eject_flag : ℕ
  check_done_flag : ℕ
  apogee_val : ℤ
  oldest_val : ℚ
  altitude_ring_buffer : ring_buffer
deriving DecidableEq

/-- Initial values of the globals (main.cpp lines 45, 67, 760-765), with the
ring buffer freshly initialized at capacity `N`. -/
def initMachine (N : ℕ) : FlightMachine :=
  ⟨PRE_FLIGHT_GROUND, 0, 0, 0, 0, 0, ring_buffer_init N⟩

/-- One iteration of the `checkFlightState` while-loop (main.cpp lines
1120-1193) on a received altitude value `x`.  Returns the updated globals and
the list of states assigned to `current_state` during the iteration, in
order. -/
def checkFlightStateStep (m : FlightMachine) (x : ℚ) : FlightMachine × List FLIGHT_STATE :=
  if m.apogee_flag ≠ 1 then
    let s₁ : FLIGHT_STATE :=
      if x < LAUNCH_DETECTION_THRESHOLD then PRE_FLIGHT_GROUND
      else if launch_window_cond x then POWERED_FLIGHT
      else m.current_state
    let v₁ : List FLIGHT_STATE :=
      if x < LAUNCH_DETECTION_THRESHOLD then [PRE_FLIGHT_GROUND]
      else if launch_window_cond x then [POWERED_FLIGHT]
      else []
    let rb := ring_buffer_put m.altitude_ring_buffer x
    let oldest := if ring_buffer_full rb then ring_buffer_get rb else m.oldest_val
    if APOGEE_DETECTION_THRESHOLD ≤ oldest - x then
      if m.apogee_flag = 0 then
        ({ m with current_state := DROGUE_DESCENT, apogee_flag := 1,
                  apogee_val := c_float_to_int ((oldest - x) / 2 + oldest),
                  oldest_val := oldest, altitude_ring_buffer := rb },
         v₁ ++ [APOGEE, DROGUE_DEPLOY, DROGUE_DESCENT])
      else
        ({ m with current_state := s₁, oldest_val := oldest, altitude_ring_buffer := rb }, v₁)
    else
      ({ m with current_state := s₁, oldest_val := oldest, altitude_ring_buffer := rb }, v₁)
  else
    let r₁ : FlightMachine × List FLIGHT_STATE :=
      if main_deploy_cond x m.apogee_val then
        if m.main_eject_flag = 0 then
          ({ m with current_state := MAIN_DEPLOY, main_eject_flag := 1 }, [MAIN_DEPLOY])
        else if m.main_eject_flag = 1 ∧ m.check_done_flag = 0 then
          ({ m with current_state := MAIN_DESCENT }, [MAIN_DESCENT])
        else (m, [])
      else (m, [])
    if x < LAUNCH_DETECTION_THRESHOLD then
      ({ r₁.1 with current_state := POST_FLIGHT_GROUND, check_done_flag := 1 },
       r₁.2 ++ [POST_FLIGHT_GROUND])
    else r₁

/-- Run `checkFlightStateStep` over a whole altitude trace, collecting all
states assigned to `current_state`. -/
def runSteps : FlightMachine → List ℚ → FlightMachine × List FLIGHT_STATE
  | m, [] => (m, [])
  | m, x :: xs =>
    let r := checkFlightStateStep m x
    let rest := runSteps r.1 xs
    (rest.1, r.2 ++ rest.2)

/-- Run over a trace, keeping the per-sample assignment lists separate. -/
def runLists : FlightMachine → List ℚ → List (List FLIGHT_STATE)
  | _, [] => []
  | m, x :: xs => (checkFlightStateStep m x).2 :: runLists (checkFlightStateStep m x).1 xs

/-- The last `n` elements of a list. -/
def lastN (n : ℕ) (l : List ℚ) : List ℚ := l.drop (l.length - n)

/-- The value of the `oldest_val` global after the samples `xs` have been
processed from a fresh start with buffer capacity `N`: it stays at its initial
0 until the buffer first fills, and thereafter holds the oldest buffered
value. -/
def oldestAfter (N : ℕ) (xs : List ℚ) : ℚ :=
  if xs.length < N then 0 else (lastN N xs).headD 0

/-- The apogee drop test of main.cpp line 1150 at sample index `k` of the
trace `xs`, phrased directly on the trace. -/
def apogeeDropCond (N : ℕ) (xs : List ℚ) (k : ℕ) : Prop :=
  APOGEE_DETECTION_THRESHOLD ≤ oldestAfter N (xs.take (k + 1)) - xs.getD k 0

instance (N : ℕ) (xs : List ℚ) (k : ℕ) : Decidable (apogeeDropCond N xs k) := by
  unfold apogeeDropCond
  infer_instance

/-- The altimeter data fields used in main.cpp (`alt_data` member of
`telemetry_type_t`). -/
structure Altimeter_Data where
  pressure : ℚ
  altitude : ℚ
  velocity : ℚ
  temperature : ℚ
deriving DecidableEq

/-- The packet-field assignments of `readAltimeterTask` (main.cpp lines
1003-1012): the measured pressure, altitude and temperature are stored, then
every field is overwritten with 0 before the packet is enqueued. -/
def readAltimeterTaskPacket (PRESSURE a T : ℚ) : Altimeter_Data :=
  let p₁ : Altimeter_Data := { pressure := PRESSURE, altitude := a, velocity := 0, temperature := T }
  { p₁ with pressure := 0, altitude := 0, velocity := 0, temperature := 0 }

/-- The four enqueue operations of `readAltimeterTask` (main.cpp lines
1018-1021), pairing each destination queue with the packet it receives. -/
def readAltimeterTaskSends (PRESSURE a T : ℚ) : List (String × Altimeter_Data) :=
  [("telemetry_data_queue", readAltimeterTaskPacket PRESSURE a T),
   ("log_to_mem_queue", readAltimeterTaskPacket PRESSURE a T),
   ("check_state_queue", readAltimeterTaskPacket PRESSURE a T),
   ("debug_to_term_queue", readAltimeterTaskPacket PRESSURE a T)]

/-- FreeRTOS `portMAX_DELAY` on the ESP32 port: a send with this timeout
blocks indefinitely on a full queue. -/
def portMAX_DELAY : ℕ := 4294967295

/-- A producer-side `xQueueSend` call site: the task it appears in, the
destination queue handle, and the `xTicksToWait` argument. -/
structure QueueSendSite where
  task : String
  queue : String
  ticksToWait : ℕ
deriving DecidableEq

/-- Every producer-side `xQueueSend` call in main.cpp: `readAccelerationTask`
lines 905-908, `readAltimeterTask` lines 1018-1021, `readGPSTask` lines
1080-1083, and the test-data replay send in `loop` line 1943. -/
def xQueueSendSites : List QueueSendSite :=
  [⟨"readAccelerationTask", "telemetry_data_queue", 0⟩,
   ⟨"readAccelerationTask", "log_to_mem_queue", 0⟩,
   ⟨"readAccelerationTask", "check_state_queue", 0⟩,
   ⟨"readAccelerationTask", "debug_to_term_queue", 0⟩,
   ⟨"readAltimeterTask", "telemetry_data_queue", 0⟩,
   ⟨"readAltimeterTask", "log_to_mem_queue", 0⟩,
   ⟨"readAltimeterTask", "check_state_queue", 0⟩,
   ⟨"readAltimeterTask", "debug_to_term_queue", 0⟩,
   ⟨"readGPSTask", "telemetry_data_queue", portMAX_DELAY⟩,
   ⟨"readGPSTask", "log_to_mem_queue", portMAX_DELAY⟩,
   ⟨"readGPSTask", "check_state_queue", portMAX_DELAY⟩,
   ⟨"readGPSTask", "debug_to_term_queue", portMAX_DELAY⟩,
   ⟨"loop", "check_state_queue", portMAX_DELAY⟩]

/-- Forward-ordering relation on visited states: the successor is at least as
far along the ordered state list, except that a fall back to PreFlightGround
is also admitted. -/
def stateOrderOk (a b : FLIGHT_STATE) : Prop :=
  a.toNat ≤ b.toNat ∨ b = PRE_FLIGHT_GROUND

instance (a b : FLIGHT_STATE) : Decidable (stateOrderOk a b) := by
  unfold stateOrderOk
  infer_instance

/-- Invariant tying the flag globals to the possible values of
`current_state` in every reachable configuration of `checkFlightState`. -/
def MachineInv (m : FlightMachine) : Prop :=
  (m.apogee_flag = 0 ∧ m.main_eject_flag = 0 ∧ m.check_done_flag = 0 ∧
    (m.current_state = PRE_FLIGHT_GROUND ∨ m.current_state = POWERED_FLIGHT)) ∨
  (m.apogee_flag = 1 ∧ m.main_eject_flag = 0 ∧ m.check_done_flag = 0 ∧
    m.current_state = DROGUE_DESCENT) ∨
  (m.apogee_flag = 1 ∧ m.main_eject_flag = 1 ∧ m.check_done_flag = 0 ∧
    (m.current_state = MAIN_DEPLOY ∨ m.current_state = MAIN_DESCENT)) ∨
  (m.apogee_flag = 1 ∧ m.check_done_flag = 1 ∧ m.current_state = POST_FLIGHT_GROUND ∧
    (m.main_eject_flag = 1 ∨ (m.main_eject_flag = 0 ∧ m.apogee_val < 0)))

/-- The machine configuration after the first `k` samples of the trace have
been processed from a fresh start with buffer capacity `N`. -/
def machineAt (N : ℕ) (xs : List ℚ) (k : ℕ) : FlightMachine :=
  (runSteps (initMachine N) (xs.take k)).1

/-- The chained comparison on main.cpp line 1134 is true for every altitude:
the inner comparison yields 0 or 1, and both are below the upper bound 25. -/
theorem launch_window_cond_true (x : ℚ) : launch_window_cond x = true := by
  unfold launch_window_cond
  rw [decide_eq_true_eq]
  unfold LAUNCH_DETECTION_THRESHOLD LAUNCH_DETECTION_ALTITUDE_WINDOW
  split <;> norm_num

/-- Claim C9: each call of the altitude filter update on raw measurement `z`
performs exactly the spec's stated recursion (predicted covariance, gain,
estimate correction, covariance update) and returns the updated estimate. -/
theorem c9_kalman_recursion (pv mv : ℚ) (s : KalmanState) (z : ℚ) :
    (kalmanFilter pv mv s z).1.estimated_altitude =
      (AltitudeEstimator.update pv mv ⟨s.estimated_altitude, s.error_covariance_bmp⟩ z).1.estimate ∧
    (kalmanFilter pv mv s z).1.error_covariance_bmp =
      (AltitudeEstimator.update pv mv ⟨s.estimated_altitude, s.error_covariance_bmp⟩ z).1.error_covariance ∧
    (kalmanFilter pv mv s z).2 =
      (AltitudeEstimator.update pv mv ⟨s.estimated_altitude, s.error_covariance_bmp⟩ z).2 ∧
    (kalmanFilter pv mv s z).2 = (kalmanFilter pv mv s z).1.estimated_altitude :=
  ⟨rfl, rfl, rfl, rfl⟩

/-- Claim C5: every altitude packet the altimeter producer enqueues to its four
consumer channels carries pressure, altitude, velocity and temperature all
equal to 0: the measured values are overwritten with zeros before the sends. -/
theorem c5_altimeter_packets_all_zero (PRESSURE a T : ℚ) :
    readAltimeterTaskSends PRESSURE a T =
      [("telemetry_data_queue", ⟨0, 0, 0, 0⟩),
       ("log_to_mem_queue", ⟨0, 0, 0, 0⟩),
       ("check_state_queue", ⟨0, 0, 0, 0⟩),
       ("debug_to_term_queue", ⟨0, 0, 0, 0⟩)] := rfl

/-- Claim C1 (code bug): at raw barometric altitude 30 the Kalman filter output
is 15 (starting from estimate 0, unit variances), but the packet fed to the
state-evaluation queue carries altitude 0, so the state machine never sees the
filter's output. -/
theorem c1_state_input_not_filter_output :
    (readAltimeterTaskPacket 1000 30 20).altitude = 0 ∧
    (kalmanFilter 1 1 ⟨0, 0, 0⟩ 30).2 = 15 ∧
    (readAltimeterTaskPacket 1000 30 20).altitude ≠ (kalmanFilter 1 1 ⟨0, 0, 0⟩ 30).2 := by
  refine ⟨rfl, ?_, ?_⟩ <;> norm_num [kalmanFilter, readAltimeterTaskPacket]

/-- Claim C6 counterexample: a first sample exactly at
LAUNCH_DETECTION_THRESHOLD + LAUNCH_DETECTION_ALTITUDE_WINDOW = 25, which lies
outside the open window, still moves the machine from PreFlightGround into
PoweredFlight, because the chained comparison always evaluates true. -/
theorem c6_window_upper_cex :
    ¬ ((25 : ℚ) < LAUNCH_DETECTION_THRESHOLD + LAUNCH_DETECTION_ALTITUDE_WINDOW) ∧
    (initMachine 10).current_state = PRE_FLIGHT_GROUND ∧
    (checkFlightStateStep (initMachine 10) 25).1.current_state = POWERED_FLIGHT ∧
    (checkFlightStateStep (initMachine 10) 25).2 = [POWERED_FLIGHT] := by
  refine ⟨by norm_num [LAUNCH_DETECTION_THRESHOLD, LAUNCH_DETECTION_ALTITUDE_WINDOW], rfl, ?_, ?_⟩ <;>
  norm_num [checkFlightStateStep, initMachine, ring_buffer_init, ring_buffer_put,
    ring_buffer_full, ring_buffer_get, launch_window_cond, LAUNCH_DETECTION_THRESHOLD,
    LAUNCH_DETECTION_ALTITUDE_WINDOW, APOGEE_DETECTION_THRESHOLD]

/-- Claim C6 amended: before apogee is latched, a processed sample assigns
PoweredFlight exactly when the altitude is at or above
LAUNCH_DETECTION_THRESHOLD (the chained comparison against the window's upper
bound is always true, so the window plays no role), and assigns
PreFlightGround exactly when the altitude is below the threshold. -/
theorem c6_launch_transition_amended (m : FlightMachine) (x : ℚ) (h : m.apogee_flag ≠ 1) :
    ((checkFlightStateStep m x).2.head? = some POWERED_FLIGHT ↔ LAUNCH_DETECTION_THRESHOLD ≤ x) ∧
    ((checkFlightStateStep m x).2.head? = some PRE_FLIGHT_GROUND ↔ x < LAUNCH_DETECTION_THRESHOLD) := by
  by_cases hx : x < LAUNCH_DETECTION_THRESHOLD <;>
    simp [checkFlightStateStep, h, hx, launch_window_cond_true, not_le.2, le_of_not_lt] <;>
    split_ifs <;> simp [hx]

/-- Claim C6 witness: the amended characterization evaluated at a fresh
machine and the concrete sample 25. -/
theorem c6_launch_transition_amended_witness :
    ((checkFlightStateStep (initMachine 10) 25).2.head? = some POWERED_FLIGHT ↔
      LAUNCH_DETECTION_THRESHOLD ≤ 25) ∧
    ((checkFlightStateStep (initMachine 10) 25).2.head? = some PRE_FLIGHT_GROUND ↔
      (25 : ℚ) < LAUNCH_DETECTION_THRESHOLD) :=
  c6_launch_transition_amended (initMachine 10) 25 (by norm_num [initMachine])

/-- Claim C8 counterexample: the replay-path send into the state-evaluation
channel (main.cpp line 1943) waits portMAX_DELAY ticks, i.e. it blocks
indefinitely on a full queue instead of dropping the sample. -/
theorem c8_blocking_send_cex :
    (⟨"loop", "check_state_queue", portMAX_DELAY⟩ : QueueSendSite) ∈ xQueueSendSites ∧
    portMAX_DELAY ≠ 0 := by
  refine ⟨?_, by norm_num [portMAX_DELAY]⟩
  simp [xQueueSendSites]

/-- Claim C8 amended: a producer-side send is non-blocking (timeout 0) exactly
when it belongs to the accelerometer or the altimeter task; the GPS producer's
sends and the replay-path send into the state-evaluation channel all wait
portMAX_DELAY, i.e. block indefinitely on a full queue. -/
theorem c8_producer_send_policy (s : QueueSendSite) (hs : s ∈ xQueueSendSites) :
    (s.ticksToWait = 0 ↔ (s.task = "readAccelerationTask" ∨ s.task = "readAltimeterTask")) ∧
    (s.ticksToWait = 0 ∨ s.ticksToWait = portMAX_DELAY) := by
  fin_cases hs <;> simp [portMAX_DELAY]

/-- Claim C8 witness: the amended policy evaluated at the altimeter task's
send into the state-evaluation channel. -/
theorem c8_producer_send_policy_witness :
    ((⟨"readAltimeterTask", "check_state_queue", 0⟩ : QueueSendSite).ticksToWait = 0 ↔
      ((⟨"readAltimeterTask", "check_state_queue", 0⟩ : QueueSendSite).task = "readAccelerationTask" ∨
       (⟨"readAltimeterTask", "check_state_queue", 0⟩ : QueueSendSite).task = "readAltimeterTask")) ∧
    ((⟨"readAltimeterTask", "check_state_queue", 0⟩ : QueueSendSite).ticksToWait = 0 ∨
     (⟨"readAltimeterTask", "check_state_queue", 0⟩ : QueueSendSite).ticksToWait = portMAX_DELAY) :=
  c8_producer_send_policy ⟨"readAltimeterTask", "check_state_queue", 0⟩ (by simp [xQueueSendSites])

/-- Claim C10 counterexample: with measurement variance 1 (strictly positive)
and process variance 1, an update from error covariance 0 yields covariance
1/2 - the update increased the covariance, so it does not strictly decrease on
every update. -/
theorem c10_variance_decay_cex :
    (0 : ℚ) < 1 ∧
    (kalmanFilter 1 1 ⟨0, 0, 0⟩ 0).1.error_covariance_bmp = 1 / 2 ∧
    ¬ ((kalmanFilter 1 1 ⟨0, 0, 0⟩ 0).1.error_covariance_bmp <
        (⟨0, 0, 0⟩ : KalmanState).error_covariance_bmp) := by
  refine ⟨by norm_num, ?_, ?_⟩ <;> norm_num [kalmanFilter]

/-- Closed form of the error covariance under iterated updates with zero
process variance: after `n` updates it equals `a * mv / (mv + n * a)` where
`a` is the starting covariance. -/
theorem kalmanIter_covariance_closed (mv z : ℚ) (s : KalmanState)
    (hmv : 0 < mv) (hec : 0 < s.error_covariance_bmp) (n : ℕ) :
    (kalmanIter 0 mv z s n).error_covariance_bmp =
      s.error_covariance_bmp * mv / (mv + n * s.error_covariance_bmp) := by
  set a := s.error_covariance_bmp with ha
  induction n with
  | zero =>
    simp [kalmanIter]
    field_simp
  | succ n ih =>
    have hden : (0 : ℚ) < mv + n * a := by positivity
    have hden2 : (0 : ℚ) < mv + (n + 1) * a := by positivity
    have hecn : (kalmanIter 0 mv z s n).error_covariance_bmp = a * mv / (mv + n * a) := ih
    show (kalmanFilter 0 mv (kalmanIter 0 mv z s n) z).1.error_covariance_bmp = _
    simp only [kalmanFilter, hecn]
    have hpos : (0 : ℚ) < a * mv / (mv + n * a) := by positivity
    have hsum : a * mv / (mv + n * a) + mv ≠ 0 := by positivity
    push_cast
    field_simp
    ring

/-- Claim C10 amended: with zero process variance, a strictly positive
measurement variance and a strictly positive current error covariance, every
filter update strictly decreases the error covariance, and repeated updates on
a fixed input drive it below any positive bound. -/
theorem c10_variance_decay_amended (mv : ℚ) (hmv : 0 < mv) (s : KalmanState)
    (hec : 0 < s.error_covariance_bmp) (z : ℚ) :
    (kalmanFilter 0 mv s z).1.error_covariance_bmp < s.error_covariance_bmp ∧
    ∀ ε : ℚ, 0 < ε → ∃ n : ℕ, (kalmanIter 0 mv z s n).error_covariance_bmp < ε := by
  set a := s.error_covariance_bmp with ha
  constructor
  · have h1 : (kalmanFilter 0 mv s z).1.error_covariance_bmp =
        (kalmanIter 0 mv z s 1).error_covariance_bmp := rfl
    rw [h1, kalmanIter_covariance_closed mv z s hmv hec 1]
    rw [div_lt_iff₀ (by positivity)]
    push_cast
    nlinarith
  · intro ε hε
    obtain ⟨n, hn⟩ := exists_nat_gt (mv * (a - ε) / (ε * a))
    refine ⟨n, ?_⟩
    rw [kalmanIter_covariance_closed mv z s hmv hec n]
    rw [div_lt_iff₀ (by positivity)]
    have h2 : mv * (a - ε) < n * (ε * a) := by
      rw [div_lt_iff₀ (by positivity)] at hn
      linarith
    nlinarith

/-- Claim C10 witness: the amended decay statement evaluated at measurement
variance 1 and starting covariance 1. -/
theorem c10_variance_decay_amended_witness :
    (kalmanFilter 0 1 ⟨0, 1, 0⟩ 0).1.error_covariance_bmp <
      (⟨0, 1, 0⟩ : KalmanState).error_covariance_bmp ∧
    ∀ ε : ℚ, 0 < ε → ∃ n : ℕ, (kalmanIter 0 1 0 ⟨0, 1, 0⟩ n).error_covariance_bmp < ε :=
  c10_variance_decay_amended 1 (by norm_num) ⟨0, 1, 0⟩ (by norm_num) 0

/-- A single evaluation tick either emits no MainDeploy assignment and leaves
the main latch unchanged, or the latch was clear, exactly one MainDeploy is
emitted, and the latch is set. -/
theorem step_main_count (m : FlightMachine) (x : ℚ) :
    (List.count MAIN_DEPLOY (checkFlightStateStep m x).2 = 0 ∧
      (checkFlightStateStep m x).1.main_eject_flag = m.main_eject_flag) ∨
    (m.main_eject_flag = 0 ∧ List.count MAIN_DEPLOY (checkFlightStateStep m x).2 = 1 ∧
      (checkFlightStateStep m x).1.main_eject_flag = 1) := by
  simp only [checkFlightStateStep]
  split_ifs <;>
    simp_all [List.count_append, List.count_cons, List.count_nil]

/-- Once the main latch is set, an evaluation tick emits no MainDeploy. -/
theorem step_no_main_deploy_of_latched (m : FlightMachine) (x : ℚ)
    (h : m.main_eject_flag = 1) :
    List.count MAIN_DEPLOY (checkFlightStateStep m x).2 = 0 := by
  rcases step_main_count m x with ⟨h0, _⟩ | ⟨hm0, _, _⟩
  · exact h0
  · rw [h] at hm0
    exact absurd hm0 one_ne_zero

/-- Over any trace, the number of MainDeploy assignments is at most one, and
zero if the latch is already set. -/
theorem run_main_count (m : FlightMachine) (xs : List ℚ) :
    List.count MAIN_DEPLOY (runSteps m xs).2 ≤ if m.main_eject_flag = 0 then 1 else 0 := by
  induction xs generalizing m with
  | nil => simp [runSteps]
  | cons x xs ih =>
    show List.count MAIN_DEPLOY
        ((checkFlightStateStep m x).2 ++ (runSteps (checkFlightStateStep m x).1 xs).2) ≤ _
    rw [List.count_append]
    have hrest := ih (checkFlightStateStep m x).1
    rcases step_main_count m x with ⟨h0, hf⟩ | ⟨hm0, h1, hf⟩
    · rw [hf] at hrest
      rw [h0]
      simpa using hrest
    · rw [hf] at hrest
      simp only [if_neg one_ne_zero] at hrest
      have h0' : List.count MAIN_DEPLOY (runSteps (checkFlightStateStep m x).1 xs).2 = 0 :=
        Nat.le_zero.mp hrest
      rw [h1, h0', hm0]
      simp

/-- Claim C2: the main pyro channel fires at most once per flight.  Over any
trace from a fresh start at most one MainDeploy assignment occurs; a tick
evaluated with the main latch already set emits none; and two consecutive
ticks that both satisfy the MainDeploy entry condition emit exactly one
MainDeploy between them. -/
theorem c2_main_deploy_fire_once (N : ℕ) (xs : List ℚ) (m : FlightMachine) (x₁ x₂ : ℚ)
    (h1 : m.apogee_flag = 1) (h2 : m.main_eject_flag = 0)
    (hc1 : main_deploy_cond x₁ m.apogee_val = true)
    (_hc2 : main_deploy_cond x₂ (checkFlightStateStep m x₁).1.apogee_val = true) :
    List.count MAIN_DEPLOY (runSteps (initMachine N) xs).2 ≤ 1 ∧
    (∀ (m' : FlightMachine) (y : ℚ), m'.main_eject_flag = 1 →
      List.count MAIN_DEPLOY (checkFlightStateStep m' y).2 = 0) ∧
    List.count MAIN_DEPLOY
      ((checkFlightStateStep m x₁).2 ++ (checkFlightStateStep (checkFlightStateStep m x₁).1 x₂).2) = 1 := by
  refine ⟨?_, fun m' y h => step_no_main_deploy_of_latched m' y h, ?_⟩
  · have h := run_main_count (initMachine N) xs
    simpa [initMachine] using h
  · rw [List.count_append]
    have ht1 : List.count MAIN_DEPLOY (checkFlightStateStep m x₁).2 = 1 ∧
        (checkFlightStateStep m x₁).1.main_eject_flag = 1 := by
      by_cases hx : x₁ < LAUNCH_DETECTION_THRESHOLD <;>
        simp [checkFlightStateStep, h1, h2, hc1, hx, List.count_append, List.count_cons,
          List.count_nil]
    rw [ht1.1, step_no_main_deploy_of_latched _ x₂ ht1.2]

/-- Claim C2 witness: the idempotence statement evaluated on a concrete
post-apogee configuration and two consecutive samples at altitude 50. -/
theorem c2_main_deploy_fire_once_witness :
    List.count MAIN_DEPLOY (runSteps (initMachine 10) []).2 ≤ 1 ∧
    (∀ (m' : FlightMachine) (y : ℚ), m'.main_eject_flag = 1 →
      List.count MAIN_DEPLOY (checkFlightStateStep m' y).2 = 0) ∧
    List.count MAIN_DEPLOY
      ((checkFlightStateStep (⟨DROGUE_DESCENT, 1, 0, 0, 100, 0, ⟨10, []⟩⟩ : FlightMachine) 50).2 ++
       (checkFlightStateStep
         (checkFlightStateStep (⟨DROGUE_DESCENT, 1, 0, 0, 100, 0, ⟨10, []⟩⟩ : FlightMachine) 50).1
         50).2) = 1 :=
  c2_main_deploy_fire_once 10 [] (⟨DROGUE_DESCENT, 1, 0, 0, 100, 0, ⟨10, []⟩⟩ : FlightMachine)
    50 50 rfl rfl
    (by norm_num [main_deploy_cond, LAUNCH_DETECTION_THRESHOLD])
    (by norm_num [checkFlightStateStep, main_deploy_cond, LAUNCH_DETECTION_THRESHOLD,
      APOGEE_DETECTION_THRESHOLD, ring_buffer_put, ring_buffer_full, ring_buffer_get])

/-- Claim C7 counterexample: on the trace 6, 3 the machine visits
PoweredFlight and then falls back to PreFlightGround, a backward move, so the
visited sequence is not non-decreasing. -/
theorem c7_backward_move_cex :
    (runSteps (initMachine 10) [6, 3]).2 = [POWERED_FLIGHT, PRE_FLIGHT_GROUND] ∧
    ¬ List.Chain' (fun a b => a.toNat ≤ b.toNat)
        (PRE_FLIGHT_GROUND :: (runSteps (initMachine 10) [6, 3]).2) := by
  have h : (runSteps (initMachine 10) [6, 3]).2 = [POWERED_FLIGHT, PRE_FLIGHT_GROUND] := by
    norm_num [runSteps, checkFlightStateStep, initMachine, ring_buffer_init, ring_buffer_put,
      ring_buffer_full, ring_buffer_get, launch_window_cond, LAUNCH_DETECTION_THRESHOLD,
      LAUNCH_DETECTION_ALTITUDE_WINDOW, APOGEE_DETECTION_THRESHOLD]
  refine ⟨h, ?_⟩
  rw [h]
  simp [List.chain'_cons, FLIGHT_STATE.toNat]

/-- With a negative `apogee_val` the chained MainDeploy range test is false for
every altitude, since the inner comparison yields only 0 or 1. -/
theorem main_deploy_cond_false_of_neg (x : ℚ) (av : ℤ) (h : av < 0) :
    main_deploy_cond x av = false := by
  unfold main_deploy_cond
  rw [decide_eq_false_iff_not]
  split <;> omega

/-- One tick preserves the machine invariant, the states it assigns respect
the forward ordering (starting from the current state), and the last entry of
current-state-then-assignments is the new current state. -/
theorem step_chain_inv (m : FlightMachine) (x : ℚ) (hm : MachineInv m) :
    MachineInv (checkFlightStateStep m x).1 ∧
    List.Chain' stateOrderOk (m.current_state :: (checkFlightStateStep m x).2) ∧
    (m.current_state :: (checkFlightStateStep m x).2).getLast? =
      some (checkFlightStateStep m x).1.current_state := by
  obtain ⟨ha, hmn, hc, hs⟩ | ⟨ha, hmn, hc, hs⟩ | ⟨ha, hmn, hc, hs⟩ | ⟨ha, hc, hs, hrest⟩ := hm
  · rcases hs with hs | hs <;>
      simp only [checkFlightStateStep, ha, hmn, hc, hs, launch_window_cond_true] <;>
      split_ifs <;>
      simp_all [MachineInv, stateOrderOk, FLIGHT_STATE.toNat, List.chain'_cons]
  · rcases lt_or_le x LAUNCH_DETECTION_THRESHOLD with hx | hx <;>
      [have hx' : ¬ LAUNCH_DETECTION_THRESHOLD ≤ x := not_le.mpr hx;
       have hx' : ¬ x < LAUNCH_DETECTION_THRESHOLD := not_lt.mpr hx] <;>
      simp only [checkFlightStateStep, ha, hmn, hc, hs, launch_window_cond_true,
        main_deploy_cond, hx, hx', decide_eq_true_eq] <;>
      split_ifs <;>
      simp_all [MachineInv, stateOrderOk, FLIGHT_STATE.toNat, List.chain'_cons, not_le]
  · rcases hs with hs | hs <;>
      rcases lt_or_le x LAUNCH_DETECTION_THRESHOLD with hx | hx <;>
      [have hx' : ¬ LAUNCH_DETECTION_THRESHOLD ≤ x := not_le.mpr hx;
       have hx' : ¬ x < LAUNCH_DETECTION_THRESHOLD := not_lt.mpr hx;
       have hx' : ¬ LAUNCH_DETECTION_THRESHOLD ≤ x := not_le.mpr hx;
       have hx' : ¬ x < LAUNCH_DETECTION_THRESHOLD := not_lt.mpr hx] <;>
      simp only [checkFlightStateStep, ha, hmn, hc, hs, launch_window_cond_true,
        main_deploy_cond, hx, hx', decide_eq_true_eq] <;>
      split_ifs <;>
      simp_all [MachineInv, stateOrderOk, FLIGHT_STATE.toNat, List.chain'_cons, not_le]
  · rcases hrest with hmn | ⟨hmn, hav⟩
    · simp only [checkFlightStateStep, ha, hmn, hc, hs, launch_window_cond_true]
      split_ifs <;>
        simp_all [MachineInv, stateOrderOk, FLIGHT_STATE.toNat, List.chain'_cons]
    · simp only [checkFlightStateStep, ha, hmn, hc, hs, launch_window_cond_true,
        main_deploy_cond_false_of_neg x m.apogee_val hav]
      split_ifs <;>
        simp_all [MachineInv, stateOrderOk, FLIGHT_STATE.toNat, List.chain'_cons, hav]

/-- From any configuration satisfying the invariant, the whole visited-state
sequence respects the forward ordering with falls back to PreFlightGround as
the only exception. -/
theorem run_chain_inv (m : FlightMachine) (xs : List ℚ) (hm : MachineInv m) :
    List.Chain' stateOrderOk (m.current_state :: (runSteps m xs).2) := by
  induction xs generalizing m with
  | nil => simp [runSteps]
  | cons x xs ih =>
    obtain ⟨hInv, hchain, hlast⟩ := step_chain_inv m x hm
    have htail := ih (checkFlightStateStep m x).1 hInv
    show List.Chain' stateOrderOk
      (m.current_state ::
        ((checkFlightStateStep m x).2 ++ (runSteps (checkFlightStateStep m x).1 xs).2))
    rw [← List.cons_append]
    refine List.Chain'.append hchain ((List.chain'_cons'.mp htail).2) ?_
    intro a hA b hB
    rw [hlast, Option.mem_some_iff] at hA
    subst hA
    exact (List.chain'_cons'.mp htail).1 b hB

/-- Claim C7 amended: for any altitude trace the visited-state sequence is
non-decreasing through the ordered state list, except for falls back to
PreFlightGround (which the code performs from PoweredFlight whenever the
altitude drops below the launch threshold before apogee is latched). -/
theorem c7_forward_only_amended (N : ℕ) (xs : List ℚ) :
    List.Chain' stateOrderOk (PRE_FLIGHT_GROUND :: (runSteps (initMachine N) xs).2) := by
  have h := run_chain_inv (initMachine N) xs (by simp [MachineInv, initMachine])
  simpa [initMachine] using h

/-- The machine reached after an appended trace is the machine of the second
leg started from the first leg's result. -/
theorem runSteps_append_fst (m : FlightMachine) (l₁ l₂ : List ℚ) :
    (runSteps m (l₁ ++ l₂)).1 = (runSteps (runSteps m l₁).1 l₂).1 := by
  induction l₁ generalizing m with
  | nil => simp [runSteps]
  | cons x l₁ ih => simp [runSteps, ih]

/-- A trace prefix of length `k + 1` is the prefix of length `k` followed by
the sample at index `k`. -/
theorem take_succ_getD (xs : List ℚ) (k : ℕ) (hk : k < xs.length) :
    xs.take (k + 1) = xs.take k ++ [xs.getD k 0] := by
  rw [List.take_succ]
  congr 1
  rw [List.getElem?_eq_getElem hk]
  simp [List.getD, List.getElem?_eq_getElem hk]

/-- Once the apogee latch is set, a tick keeps it set, never changes the
recorded apogee altitude, and never assigns the Apogee state again. -/
theorem step_latched (m : FlightMachine) (x : ℚ) (h : m.apogee_flag = 1) :
    (checkFlightStateStep m x).1.apogee_flag = 1 ∧
    (checkFlightStateStep m x).1.apogee_val = m.apogee_val ∧
    APOGEE ∉ (checkFlightStateStep m x).2 := by
  simp only [checkFlightStateStep, h]
  split_ifs <;> simp_all

/-- Unfolding one tick of the trace-indexed machine. -/
theorem machineAt_succ (N : ℕ) (xs : List ℚ) (t : ℕ) :
    machineAt N xs (t + 1) =
      if t < xs.length then
        (checkFlightStateStep (machineAt N xs t) (xs.getD t 0)).1
      else machineAt N xs t := by
  unfold machineAt
  by_cases ht : t < xs.length
  · rw [if_pos ht, take_succ_getD xs t ht, runSteps_append_fst]
    simp [runSteps]
  · rw [if_neg ht]
    rw [List.take_of_length_le (by omega), List.take_of_length_le (by omega)]

/-- The apogee latch and recorded altitude persist along the rest of the
trace. -/
theorem machineAt_latched (N : ℕ) (xs : List ℚ) (t k : ℕ) (htk : t ≤ k)
    (h : (machineAt N xs t).apogee_flag = 1) :
    (machineAt N xs k).apogee_flag = 1 ∧
    (machineAt N xs k).apogee_val = (machineAt N xs t).apogee_val := by
  induction k, htk using Nat.le_induction with
  | base => exact ⟨h, rfl⟩
  | succ k hk ih =>
    rw [machineAt_succ]
    split_ifs with hlen
    · obtain ⟨hf, hv, _⟩ := step_latched (machineAt N xs k) (xs.getD k 0) ih.1
      exact ⟨hf, hv.trans ih.2⟩
    · exact ih

/-- Pushing onto a buffer holding the last `N` samples of `l` yields the
buffer holding the last `N` samples of `l ++ [x]`. -/
theorem ring_buffer_put_lastN (N : ℕ) (hN : 0 < N) (l : List ℚ) (x : ℚ) :
    ring_buffer_put ⟨N, lastN N l⟩ x = ⟨N, lastN N (l ++ [x])⟩ := by
  unfold ring_buffer_put lastN
  simp only [List.length_drop]
  by_cases hlt : l.length < N
  · rw [if_pos (by omega)]
    have h0 : l.length - N = 0 := by omega
    have h1 : (l ++ [x]).length - N = 0 := by simp; omega
    rw [h0, h1]
    simp
  · rw [if_neg (by omega)]
    have h1 : (l ++ [x]).length - N = (l.length - N) + 1 := by simp; omega
    rw [h1, List.tail_drop]
    congr 1
    rw [List.drop_append_of_le_length (by omega)]

/-- Fullness of the buffer holding the last `N` samples of `l` is exactly
whether at least `N` samples have been seen. -/
theorem ring_buffer_full_lastN (N : ℕ) (l : List ℚ) :
    ring_buffer_full ⟨N, lastN N l⟩ = decide (N ≤ l.length) := by
  unfold ring_buffer_full lastN
  simp only [List.length_drop]
  by_cases h : N ≤ l.length
  · simp [h]
    omega
  · simp [h]
    omega

/-- The `oldest_val` update of one tick, phrased on the trace: after the push
of sample `x`, `oldest_val` becomes the trace-level oldest reference value. -/
theorem oldest_after_put (N : ℕ) (l : List ℚ) (x : ℚ) :
    (if ring_buffer_full (⟨N, lastN N (l ++ [x])⟩ : ring_buffer) then
        ring_buffer_get (⟨N, lastN N (l ++ [x])⟩ : ring_buffer)
      else oldestAfter N l) = oldestAfter N (l ++ [x]) := by
  have hlen : (l ++ [x]).length = l.length + 1 := by simp
  rw [ring_buffer_full_lastN]
  unfold ring_buffer_get oldestAfter
  simp only [decide_eq_true_eq, hlen]
  by_cases h : N ≤ l.length + 1
  · rw [if_pos h, if_neg (by omega)]
  · rw [if_neg h, if_pos (by omega), if_pos (by omega)]

/-- Before any sample has satisfied the drop test, the machine keeps the latch
clear, its buffer holds the last `N` processed samples, and `oldest_val` holds
the trace-level reference value. -/
theorem machineAt_noTrigger (N : ℕ) (hN : 0 < N) (xs : List ℚ) (k : ℕ) (hk : k ≤ xs.length)
    (hno : ∀ j, j < k → ¬ apogeeDropCond N xs j) :
    (machineAt N xs k).apogee_flag = 0 ∧
    (machineAt N xs k).altitude_ring_buffer = ⟨N, lastN N (xs.take k)⟩ ∧
    (machineAt N xs k).oldest_val = oldestAfter N (xs.take k) := by
  induction k with
  | zero =>
    refine ⟨rfl, ?_, ?_⟩
    · simp [machineAt, runSteps, initMachine, ring_buffer_init, lastN]
    · simp [machineAt, runSteps, initMachine, oldestAfter, hN]
  | succ k ih =>
    have hklen : k < xs.length := by omega
    obtain ⟨hfa, hbuf, hold⟩ := ih (by omega) (fun j hj => hno j (by omega))
    have htake : xs.take (k + 1) = xs.take k ++ [xs.getD k 0] := take_succ_getD xs k hklen
    have hnk : ¬ apogeeDropCond N xs k := hno k (by omega)
    unfold apogeeDropCond at hnk
    rw [machineAt_succ, if_pos hklen]
    simp only [checkFlightStateStep, hfa, hbuf, hold]
    rw [if_pos (show (0 : ℕ) ≠ 1 by omega)]
    rw [ring_buffer_put_lastN N hN, ← htake]
    rw [htake, oldest_after_put N (xs.take k) (xs.getD k 0), ← htake]
    rw [if_neg hnk]
    exact ⟨rfl, rfl, rfl⟩

/-- Evaluation of the tick at index `k` when no earlier sample satisfied the
drop test: if the drop test holds now, the Apogee cascade fires and records
the code's apogee altitude; otherwise no Apogee state is assigned. -/
theorem step_at_noTrigger (N : ℕ) (hN : 0 < N) (xs : List ℚ) (k : ℕ) (hk : k < xs.length)
    (hno : ∀ j, j < k → ¬ apogeeDropCond N xs j) :
    (apogeeDropCond N xs k →
      APOGEE ∈ (checkFlightStateStep (machineAt N xs k) (xs.getD k 0)).2 ∧
      (machineAt N xs (k + 1)).apogee_flag = 1 ∧
      (machineAt N xs (k + 1)).apogee_val =
        c_float_to_int ((oldestAfter N (xs.take (k + 1)) - xs.getD k 0) / 2 +
          oldestAfter N (xs.take (k + 1)))) ∧
    (¬ apogeeDropCond N xs k →
      APOGEE ∉ (checkFlightStateStep (machineAt N xs k) (xs.getD k 0)).2) := by
  obtain ⟨hfa, hbuf, hold⟩ := machineAt_noTrigger N hN xs k (le_of_lt hk) hno
  have htake := take_succ_getD xs k hk
  have hsucc : machineAt N xs (k + 1) =
      (checkFlightStateStep (machineAt N xs k) (xs.getD k 0)).1 := by
    rw [machineAt_succ, if_pos hk]
  constructor
  · intro hc
    unfold apogeeDropCond at hc
    rw [hsucc]
    simp only [checkFlightStateStep, hfa, hbuf, hold]
    rw [if_pos (show (0 : ℕ) ≠ 1 by omega)]
    rw [ring_buffer_put_lastN N hN, ← htake]
    rw [htake, oldest_after_put N (xs.take k) (xs.getD k 0), ← htake]
    rw [if_pos hc]
    simp only [if_true]
    refine ⟨?_, ?_, ?_⟩ <;> simp
  · intro hc
    unfold apogeeDropCond at hc
    simp only [checkFlightStateStep, hfa, hbuf, hold]
    rw [if_pos (show (0 : ℕ) ≠ 1 by omega)]
    rw [ring_buffer_put_lastN N hN, ← htake]
    rw [htake, oldest_after_put N (xs.take k) (xs.getD k 0), ← htake]
    rw [if_neg hc]
    split_ifs <;> simp

/-- The per-sample assignment list at index `k` is the tick of the machine
reached after the first `k` samples. -/
theorem runLists_getD (m : FlightMachine) (xs : List ℚ) (k : ℕ) (hk : k < xs.length) :
    (runLists m xs).getD k [] =
      (checkFlightStateStep ((runSteps m (xs.take k)).1) (xs.getD k 0)).2 := by
  induction xs generalizing m k with
  | nil => simp at hk
  | cons x xs ih =>
    cases k with
    | zero => simp [runLists, runSteps]
    | succ k =>
      have hk' : k < xs.length := by simpa using hk
      simp only [runLists, List.getD_cons_succ, List.take_succ_cons]
      rw [ih (checkFlightStateStep m x).1 k hk']
      simp [runSteps]

/-- A single tick either emits no Apogee assignment and leaves the apogee
latch unchanged, or the latch was clear, exactly one Apogee is emitted, and
the latch is set. -/
theorem step_apogee_count (m : FlightMachine) (x : ℚ) :
    (List.count APOGEE (checkFlightStateStep m x).2 = 0 ∧
      (checkFlightStateStep m x).1.apogee_flag = m.apogee_flag) ∨
    (m.apogee_flag = 0 ∧ List.count APOGEE (checkFlightStateStep m x).2 = 1 ∧
      (checkFlightStateStep m x).1.apogee_flag = 1) := by
  simp only [checkFlightStateStep]
  split_ifs <;>
    simp_all [List.count_append, List.count_cons, List.count_nil]

/-- Over any trace, the number of Apogee assignments is at most one, and zero
if the latch is already set. -/
theorem run_apogee_count (m : FlightMachine) (xs : List ℚ) :
    List.count APOGEE (runSteps m xs).2 ≤ if m.apogee_flag = 0 then 1 else 0 := by
  induction xs generalizing m with
  | nil => simp [runSteps]
  | cons x xs ih =>
    show List.count APOGEE
        ((checkFlightStateStep m x).2 ++ (runSteps (checkFlightStateStep m x).1 xs).2) ≤ _
    rw [List.count_append]
    have hrest := ih (checkFlightStateStep m x).1
    rcases step_apogee_count m x with ⟨h0, hf⟩ | ⟨hm0, h1, hf⟩
    · rw [hf] at hrest
      rw [h0]
      simpa using hrest
    · rw [hf] at hrest
      simp only [if_neg one_ne_zero] at hrest
      have h0' : List.count APOGEE (runSteps (checkFlightStateStep m x).1 xs).2 = 0 :=
        Nat.le_zero.mp hrest
      rw [h1, h0', hm0]
      simp

/-- The Apogee state is assigned at tick `k` exactly when the drop test first
holds at `k`: the test compares the current sample against `oldest_val`,
which is 0 before the buffer fills and the oldest buffered value after. -/
theorem apogee_emit_iff (N : ℕ) (hN : 0 < N) (xs : List ℚ) (k : ℕ) (hk : k < xs.length) :
    APOGEE ∈ (runLists (initMachine N) xs).getD k [] ↔
      (apogeeDropCond N xs k ∧ ∀ j, j < k → ¬ apogeeDropCond N xs j) := by
  rw [runLists_getD (initMachine N) xs k hk]
  constructor
  · intro hmem
    by_cases hprev : ∀ j, j < k → ¬ apogeeDropCond N xs j
    · refine ⟨?_, hprev⟩
      by_contra hcond
      exact (step_at_noTrigger N hN xs k hk hprev).2 hcond hmem
    · exfalso
      push_neg at hprev
      obtain ⟨j, hj, hcj⟩ := hprev
      have hex : ∃ i, apogeeDropCond N xs i := ⟨j, hcj⟩
      have hi₀ : apogeeDropCond N xs (Nat.find hex) := Nat.find_spec hex
      have hmin : ∀ i, i < Nat.find hex → ¬ apogeeDropCond N xs i :=
        fun i hi => Nat.find_min hex hi
      have hi₀k : Nat.find hex < k := lt_of_le_of_lt (Nat.find_min' hex hcj) hj
      have hflag1 : (machineAt N xs (Nat.find hex + 1)).apogee_flag = 1 :=
        ((step_at_noTrigger N hN xs (Nat.find hex) (by omega) hmin).1 hi₀).2.1
      have hflagk : (machineAt N xs k).apogee_flag = 1 :=
        (machineAt_latched N xs (Nat.find hex + 1) k (by omega) hflag1).1
      exact (step_latched (machineAt N xs k) (xs.getD k 0) hflagk).2.2 hmem
  · intro ⟨hcond, hprev⟩
    exact ((step_at_noTrigger N hN xs k hk hprev).1 hcond).1

/-- Claim C3 counterexample: on the trace with the single sample -5, apogee is
declared at the very first tick although the ring buffer (capacity 10) is not
full, because the drop test compares against the initial `oldest_val = 0`
unconditionally. -/
theorem c3_apogee_before_full_cex :
    APOGEE ∈ (checkFlightStateStep (initMachine 10) (-5)).2 ∧
    (checkFlightStateStep (initMachine 10) (-5)).1.apogee_flag = 1 ∧
    ring_buffer_full (checkFlightStateStep (initMachine 10) (-5)).1.altitude_ring_buffer =
      false := by
  norm_num [checkFlightStateStep, initMachine, ring_buffer_init, ring_buffer_put,
    ring_buffer_full, ring_buffer_get, launch_window_cond, c_float_to_int,
    LAUNCH_DETECTION_THRESHOLD, LAUNCH_DETECTION_ALTITUDE_WINDOW, APOGEE_DETECTION_THRESHOLD]

/-- Claim C3 amended: apogee is declared at most once (the latch is never
re-set), and it is declared exactly at the first sample where `oldest_val`
minus the current altitude reaches the threshold - where `oldest_val` is 0
until the buffer first fills (so apogee can be declared before the buffer is
full) and thereafter the oldest buffered value, the sample N-1 positions
back. -/
theorem c3_apogee_once_first_trigger (N : ℕ) (hN : 0 < N) (xs : List ℚ) :
    List.count APOGEE (runSteps (initMachine N) xs).2 ≤ 1 ∧
    ∀ k, k < xs.length →
      (APOGEE ∈ (runLists (initMachine N) xs).getD k [] ↔
        (apogeeDropCond N xs k ∧ ∀ j, j < k → ¬ apogeeDropCond N xs j)) := by
  refine ⟨?_, fun k hk => apogee_emit_iff N hN xs k hk⟩
  have h := run_apogee_count (initMachine N) xs
  simpa [initMachine] using h

/-- Claim C3 witness: the amended statement evaluated at buffer capacity 10 on
the one-sample trace -5. -/
theorem c3_apogee_once_first_trigger_witness :
    List.count APOGEE (runSteps (initMachine 10) [-5]).2 ≤ 1 ∧
    ∀ k, k < ([-5] : List ℚ).length →
      (APOGEE ∈ (runLists (initMachine 10) [-5]).getD k [] ↔
        (apogeeDropCond 10 [-5] k ∧ ∀ j, j < k → ¬ apogeeDropCond 10 [-5] j)) :=
  c3_apogee_once_first_trigger 10 (by norm_num) [-5]

/-- Claim C4 amended: when the Apogee cascade fires at tick `k`, the recorded
apogee altitude is `oldest + drop / 2` truncated to int - half the observed
drop ABOVE the reference value, not below it. -/
theorem c4_apogee_altitude_amended (N : ℕ) (hN : 0 < N) (xs : List ℚ) (k : ℕ)
    (hk : k < xs.length) (hA : APOGEE ∈ (runLists (initMachine N) xs).getD k []) :
    (runSteps (initMachine N) xs).1.apogee_val =
      c_float_to_int ((oldestAfter N (xs.take (k + 1)) - xs.getD k 0) / 2 +
        oldestAfter N (xs.take (k + 1))) := by
  obtain ⟨hcond, hno⟩ := (apogee_emit_iff N hN xs k hk).mp hA
  obtain ⟨_, hflag, hval⟩ := (step_at_noTrigger N hN xs k hk hno).1 hcond
  have hfin := machineAt_latched N xs (k + 1) xs.length (by omega) hflag
  have hrun : (runSteps (initMachine N) xs).1 = machineAt N xs xs.length := by
    unfold machineAt
    rw [List.take_length]
  rw [hrun, hfin.2, hval]

/-- Claim C4 witness: the amended formula evaluated on the one-sample trace
-6, where the cascade fires with reference value 0 and the recorded apogee
altitude is 3. -/
theorem c4_apogee_altitude_amended_witness :
    (runSteps (initMachine 10) [-6]).1.apogee_val =
      c_float_to_int ((oldestAfter 10 (([-6] : List ℚ).take 1) - ([-6] : List ℚ).getD 0 0) / 2 +
        oldestAfter 10 (([-6] : List ℚ).take 1)) :=
  c4_apogee_altitude_amended 10 (by norm_num) [-6] 0 (by simp)
    (by norm_num [runLists, checkFlightStateStep, initMachine, ring_buffer_init,
      ring_buffer_put, ring_buffer_full, ring_buffer_get, launch_window_cond, c_float_to_int,
      LAUNCH_DETECTION_THRESHOLD, LAUNCH_DETECTION_ALTITUDE_WINDOW, APOGEE_DETECTION_THRESHOLD])

/-- Claim C4 counterexample: ten samples at 100 followed by one at 90 make the
cascade fire with reference value 100 and drop 10; the code records apogee
altitude 105 = oldest + drop / 2, while the claim's formula oldest - drop / 2
gives 95. -/
theorem c4_apogee_altitude_cex :
    (runSteps (initMachine 10) (List.replicate 10 100 ++ [90])).1.apogee_val = 105 ∧
    c_float_to_int ((100 : ℚ) - (100 - 90) / 2) = 95 ∧ (105 : ℤ) ≠ 95 := by
  refine ⟨?_, by norm_num [c_float_to_int], by norm_num⟩
  norm_num [runSteps, checkFlightStateStep, initMachine, ring_buffer_init, ring_buffer_put,
    ring_buffer_full, ring_buffer_get, launch_window_cond, c_float_to_int,
    LAUNCH_DETECTION_THRESHOLD, LAUNCH_DETECTION_ALTITUDE_WINDOW, APOGEE_DETECTION_THRESHOLD,
    List.replicate]
